import Mathlib

/-!
Shallow embedding of `internal/controller/state.go` from kubefirst-api.

The two operations `StateStoreCredentials` and `StateStoreCreate` are Go
methods on `ClusterController` that interact with a cluster-record store
(`GetCluster` / `UpdateCluster`) and per-provider cloud adapters.  Here each
external call is resolved by an `Env` oracle supplying the value the call
returns, and an invocation is embedded as a pure function from the
controller and the oracle to a `RunResult`: the ordered list of adapter
calls issued, the ordered list of `UpdateCluster` mutations issued, the Go
return value (`none` = nil error), and the two process-wide global string
variables the source assigns.
-/

/-- Go `error` values, carried as their message string. -/
abbrev GoError := String

/-- `types.StateStoreCredentials`: canonical credential bundle. -/
structure types.StateStoreCredentials where
  AccessKeyID : String
  SecretAccessKey : String
  Name : String
  ID : String
deriving DecidableEq

/-- The Go zero value of `types.StateStoreCredentials`. -/
def types.StateStoreCredentials.zero : types.StateStoreCredentials := ⟨"", "", "", ""⟩

/-- `types.StateStoreDetails`: canonical bucket descriptor. -/
structure types.StateStoreDetails where
  Name : String
  ID : String
  Hostname : String
  AWSStateStoreBucket : String
  AWSArtifactsBucket : String
deriving DecidableEq

/-- The fields of the persisted cluster record that the two operations read. -/
structure ClusterRecord where
  StateStoreCredsCheck : Bool
  StateStoreCreateCheck : Bool
  StateStoreCredentials : types.StateStoreCredentials
deriving DecidableEq

/-- Result of `AwsClient.CreateBucket` (the dereferenced `Location` field). -/
structure AwsBucket where
  Location : String
deriving DecidableEq

/-- Result of `civo.GetAccessCredentials`. -/
structure CivoCreds where
  AccessKeyID : String
  ID : String
  Name : String
  SecretAccessKeyID : String
deriving DecidableEq

/-- Result of `vultrConf.CreateObjectStorage`. -/
structure VultrObjectStorage where
  S3AccessKey : String
  S3SecretKey : String
  S3Hostname : String
  Label : String
  ID : String
deriving DecidableEq

/-- Result of `civo.CreateStorageBucket`. -/
structure CivoBucket where
  Name : String
  ID : String
deriving DecidableEq

/-- A value passed to `MdbCl.UpdateCluster` for one of the touched fields. -/
inductive FieldValue where
  | creds (v : types.StateStoreCredentials)
  | details (v : types.StateStoreDetails)
  | flag (b : Bool)
deriving DecidableEq

/-- One `MdbCl.UpdateCluster(clusterName, field, value)` mutation. -/
structure ClusterUpdate where
  field : String
  value : FieldValue
deriving DecidableEq

/-- One provider-adapter call, with the arguments the source passes. -/
inductive AdapterCall where
  | awsCreateBucket (bucketName : String)
  | civoGetAccessCredentials (bucket region : String)
  | civoDeleteAccessCredentials (bucket region : String)
  | doCreateSpaceBucket (accessKey secretKey endpoint bucket : String)
  | vultrCreateObjectStorage (region bucket : String)
  | vultrCreateObjectStorageBucket (accessKey secretKey endpoint bucket : String)
  | civoCreateStorageBucket (accessKeyId bucket region : String)
deriving DecidableEq

/-- The fields of `ClusterController` that the two operations read. -/
structure ClusterController where
  ClusterName : String
  CloudProvider : String
  CloudRegion : String
  KubefirstStateStoreBucketName : String
  KubefirstArtifactsBucketName : String
  AwsAccessKeyID : String
  AwsSecretAccessKey : String
deriving DecidableEq

/-- Oracle resolving every external call an invocation can make.
`civoGetAccessCredentials` is a pair because the Go call returns both a
credentials struct and an error; `updateCluster n` is the store's answer to
the n-th (0-based) `UpdateCluster` issued in this invocation. -/
structure Env where
  getCluster : Except GoError ClusterRecord
  awsCreateBucket : String → Except GoError AwsBucket
  civoGetAccessCredentials : CivoCreds × Option GoError
  civoDeleteAccessCredentials : Option GoError
  doSpacesKey : String
  doSpacesSecret : String
  doCreateSpaceBucket : Option GoError
  vultrCreateObjectStorage : Except GoError VultrObjectStorage
  vultrCreateObjectStorageBucket : Option GoError
  civoCreateStorageBucket : Except GoError CivoBucket
  updateCluster : Nat → Option GoError

/-- Everything one invocation does: adapter calls issued (in order),
`UpdateCluster` mutations issued (in order), the returned error (`none` =
nil), and the final values of the two package-level global variables the
source may assign (`none` = not assigned by this invocation). -/
structure RunResult where
  calls : List AdapterCall
  updates : List ClusterUpdate
  result : Option GoError
  DigitaloceanStateStoreBucketName : Option String
  VultrStateStoreBucketHostname : Option String
deriving DecidableEq

/-- Build a `RunResult` that assigns neither global variable. -/
def mkRes (calls : List AdapterCall) (updates : List ClusterUpdate)
    (result : Option GoError) : RunResult :=
  ⟨calls, updates, result, none, none⟩

/-- `strings.ReplaceAll(s, "/", "")` as used in the aws branch. -/
def replaceAllSlash (s : String) : String :=
  String.mk (s.data.filter (fun ch => ch ≠ '/'))

/-- The `switch`-assigned `civoCredsFailureMessage` of the civo branch:
empty string when every required field is present, otherwise the message
for the first empty field in source order. -/
def civoCredsFailureMessage (creds : CivoCreds) : String :=
  if creds.AccessKeyID = "" then
    "when retrieving civo access credentials, AccessKeyID was empty - please retry your cluster creation"
  else if creds.ID = "" then
    "when retrieving civo access credentials, ID was empty - please retry your cluster creation"
  else if creds.Name = "" then
    "when retrieving civo access credentials, Name was empty - please retry your cluster creation"
  else if creds.SecretAccessKeyID = "" then
    "when retrieving civo access credentials, SecretAccessKeyID was empty - please retry your cluster creation"
  else ""

/-- The common tail of `StateStoreCredentials` after the provider switch:
`UpdateCluster("state_store_credentials", stateStoreData)` then
`UpdateCluster("state_store_creds_check", true)`, each with early return on
error.  `updates` are the mutations already issued by the branch. -/
def persistCredsAndCheck (e : Env) (calls : List AdapterCall)
    (updates : List ClusterUpdate) (stateStoreData : types.StateStoreCredentials) : RunResult :=
  let u1 : ClusterUpdate := ⟨"state_store_credentials", .creds stateStoreData⟩
  match e.updateCluster updates.length with
  | some err => mkRes calls (updates ++ [u1]) (some err)
  | none =>
    let u2 : ClusterUpdate := ⟨"state_store_creds_check", .flag true⟩
    match e.updateCluster (updates.length + 1) with
    | some err => mkRes calls (updates ++ [u1, u2]) (some err)
    | none => mkRes calls (updates ++ [u1, u2]) none

/-- Embedding of `(clctrl *ClusterController) StateStoreCredentials()`. -/
def ClusterController.StateStoreCredentials (clctrl : ClusterController) (e : Env) : RunResult :=
  match e.getCluster with
  | .error err => mkRes [] [] (some err)
  | .ok cl =>
    if cl.StateStoreCredsCheck then mkRes [] [] none
    else
      if clctrl.CloudProvider = "aws" then
        let call1 := AdapterCall.awsCreateBucket clctrl.KubefirstStateStoreBucketName
        match e.awsCreateBucket clctrl.KubefirstStateStoreBucketName with
        | .error err => mkRes [call1] [] (some err)
        | .ok kubefirstStateStoreBucket =>
          let call2 := AdapterCall.awsCreateBucket clctrl.KubefirstArtifactsBucketName
          match e.awsCreateBucket clctrl.KubefirstArtifactsBucketName with
          | .error err => mkRes [call1, call2] [] (some err)
          | .ok kubefirstArtifactsBucket =>
            let stateStoreData : types.StateStoreCredentials :=
              ⟨clctrl.AwsAccessKeyID, clctrl.AwsSecretAccessKey, "", ""⟩
            let det : types.StateStoreDetails :=
              ⟨"", "", "", replaceAllSlash kubefirstStateStoreBucket.Location,
                replaceAllSlash kubefirstArtifactsBucket.Location⟩
            let u0 : ClusterUpdate := ⟨"state_store_details", .details det⟩
            match e.updateCluster 0 with
            | some err => mkRes [call1, call2] [u0] (some err)
            | none => persistCredsAndCheck e [call1, call2] [u0] stateStoreData
      else if clctrl.CloudProvider = "civo" then
        let getCall := AdapterCall.civoGetAccessCredentials
          clctrl.KubefirstStateStoreBucketName clctrl.CloudRegion
        -- the error component of GetAccessCredentials is only logged by the
        -- source (log.Info), never returned: the creds value is used as is
        let creds := (e.civoGetAccessCredentials).1
        if civoCredsFailureMessage creds ≠ "" then
          let delCall := AdapterCall.civoDeleteAccessCredentials
            clctrl.KubefirstStateStoreBucketName clctrl.CloudRegion
          match e.civoDeleteAccessCredentials with
          | some err => mkRes [getCall, delCall] [] (some err)
          | none => mkRes [getCall, delCall] [] (some (civoCredsFailureMessage creds))
        else
          let stateStoreData : types.StateStoreCredentials :=
            ⟨creds.AccessKeyID, creds.SecretAccessKeyID, creds.Name, creds.ID⟩
          persistCredsAndCheck e [getCall] [] stateStoreData
      else if clctrl.CloudProvider = "digitalocean" then
        let endpoint := "nyc3" ++ ".digitaloceanspaces.com"
        let accessKey := e.doSpacesKey
        let secretKey := e.doSpacesSecret
        let call := AdapterCall.doCreateSpaceBucket accessKey secretKey endpoint
          clctrl.KubefirstStateStoreBucketName
        match e.doCreateSpaceBucket with
        | some err =>
          mkRes [call] []
            (some ("error creating spaces bucket " ++ clctrl.KubefirstStateStoreBucketName ++ ": " ++ err))
        | none =>
          let stateStoreData : types.StateStoreCredentials :=
            ⟨accessKey, secretKey, clctrl.KubefirstStateStoreBucketName, ""⟩
          let det : types.StateStoreDetails :=
            ⟨clctrl.KubefirstStateStoreBucketName, "", endpoint, "", ""⟩
          let u0 : ClusterUpdate := ⟨"state_store_details", .details det⟩
          match e.updateCluster 0 with
          | some err => mkRes [call] [u0] (some err)
          | none =>
            { persistCredsAndCheck e [call] [u0] stateStoreData with
                DigitaloceanStateStoreBucketName := some endpoint }
      else if clctrl.CloudProvider = "vultr" then
        let call1 := AdapterCall.vultrCreateObjectStorage clctrl.CloudRegion
          clctrl.KubefirstStateStoreBucketName
        match e.vultrCreateObjectStorage with
        | .error err => mkRes [call1] [] (some err)
        | .ok objst =>
          let call2 := AdapterCall.vultrCreateObjectStorageBucket objst.S3AccessKey
            objst.S3SecretKey objst.S3Hostname clctrl.KubefirstStateStoreBucketName
          match e.vultrCreateObjectStorageBucket with
          | some err =>
            mkRes [call1, call2] [] (some ("error creating vultr state storage bucket: " ++ err))
          | none =>
            let stateStoreData : types.StateStoreCredentials :=
              ⟨objst.S3AccessKey, objst.S3SecretKey, objst.Label, objst.ID⟩
            let det : types.StateStoreDetails := ⟨objst.Label, objst.ID, objst.S3Hostname, "", ""⟩
            let u0 : ClusterUpdate := ⟨"state_store_details", .details det⟩
            match e.updateCluster 0 with
            | some err => mkRes [call1, call2] [u0] (some err)
            | none =>
              { persistCredsAndCheck e [call1, call2] [u0] stateStoreData with
                  VultrStateStoreBucketHostname := some objst.S3Hostname }
      else
        -- no switch case matches: stateStoreData keeps its zero value and the
        -- common tail still persists it and sets the checkpoint
        persistCredsAndCheck e [] [] types.StateStoreCredentials.zero

/-- Embedding of `(clctrl *ClusterController) StateStoreCreate()`. -/
def ClusterController.StateStoreCreate (clctrl : ClusterController) (e : Env) : RunResult :=
  match e.getCluster with
  | .error err => mkRes [] [] (some err)
  | .ok cl =>
    if cl.StateStoreCreateCheck then mkRes [] [] none
    else
      if clctrl.CloudProvider = "civo" then
        let accessKeyId := cl.StateStoreCredentials.AccessKeyID
        let call := AdapterCall.civoCreateStorageBucket accessKeyId
          clctrl.KubefirstStateStoreBucketName clctrl.CloudRegion
        match e.civoCreateStorageBucket with
        | .error err => mkRes [call] [] (some err)
        | .ok bucket =>
          let stateStoreData : types.StateStoreDetails := ⟨bucket.Name, bucket.ID, "", "", ""⟩
          let u0 : ClusterUpdate := ⟨"state_store_details", .details stateStoreData⟩
          match e.updateCluster 0 with
          | some err => mkRes [call] [u0] (some err)
          | none =>
            let u1 : ClusterUpdate := ⟨"state_store_create_check", .flag true⟩
            match e.updateCluster 1 with
            | some err => mkRes [call] [u0, u1] (some err)
            | none => mkRes [call] [u0, u1] none
      else mkRes [] [] none

/-! ### Concrete fixtures used by witnesses and counterexamples -/

/-- A fully populated civo credentials value. -/
def fullCivoCreds : CivoCreds := ⟨"AK", "RID", "RN", "SK"⟩

/-- A fresh cluster record: both checkpoints false, zero-value credentials. -/
def freshRecord : ClusterRecord := ⟨false, false, types.StateStoreCredentials.zero⟩

/-- Oracle where every external call succeeds. -/
def envOk : Env :=
  { getCluster := .ok freshRecord
    awsCreateBucket := fun b => .ok ⟨"/" ++ b⟩
    civoGetAccessCredentials := (fullCivoCreds, none)
    civoDeleteAccessCredentials := none
    doSpacesKey := "dokey"
    doSpacesSecret := "dosecret"
    doCreateSpaceBucket := none
    vultrCreateObjectStorage := .ok ⟨"vak", "vsk", "vhost", "vlabel", "vid"⟩
    vultrCreateObjectStorageBucket := none
    civoCreateStorageBucket := .ok ⟨"bname", "bid"⟩
    updateCluster := fun _ => none }

/-- A controller for cluster "demo" in region "nyc1" with the given provider. -/
def demoCtrl (provider : String) : ClusterController :=
  ⟨"demo", provider, "nyc1", "kf-state", "kf-artifacts", "awskey", "awssecret"⟩

/-- A record whose step-1 checkpoint is already set. -/
def doneRecord : ClusterRecord := ⟨true, true, ⟨"ak", "sk", "n", "i"⟩⟩

/-- Oracle whose record already has both checkpoints set. -/
def envDone : Env := { envOk with getCluster := .ok doneRecord }

/-! ### Claim C1 -/

/-- C1: for a cluster record whose `StateStoreCredsCheck` is true,
`StateStoreCredentials` issues no adapter call, issues no field update, and
returns nil. -/
theorem stateStoreCredentials_skip_frame (clctrl : ClusterController) (e : Env)
    (cl : ClusterRecord) (hget : e.getCluster = .ok cl)
    (hchk : cl.StateStoreCredsCheck = true) :
    (clctrl.StateStoreCredentials e).calls = [] ∧
      (clctrl.StateStoreCredentials e).updates = [] ∧
      (clctrl.StateStoreCredentials e).result = none := by
  unfold ClusterController.StateStoreCredentials
  rw [hget]
  simp only [hchk, if_true, mkRes]
  exact ⟨trivial, trivial, trivial⟩

/-- Witness for C1 at a concrete controller, oracle and record. -/
theorem stateStoreCredentials_skip_frame_wit :
    ((demoCtrl "civo").StateStoreCredentials envDone).calls = [] ∧
      ((demoCtrl "civo").StateStoreCredentials envDone).updates = [] ∧
      ((demoCtrl "civo").StateStoreCredentials envDone).result = none :=
  stateStoreCredentials_skip_frame (demoCtrl "civo") envDone doneRecord rfl rfl

/-! ### Claim C9 -/

/-- C9: for any provider other than "civo", `StateStoreCreate` issues no
adapter call, issues no update (in particular never sets
`state_store_create_check`), and returns nil. -/
theorem stateStoreCreate_noncivo_frame (clctrl : ClusterController) (e : Env)
    (cl : ClusterRecord) (hget : e.getCluster = .ok cl)
    (hprov : clctrl.CloudProvider ≠ "civo") :
    (clctrl.StateStoreCreate e).calls = [] ∧
      (clctrl.StateStoreCreate e).updates = [] ∧
      (clctrl.StateStoreCreate e).result = none := by
  unfold ClusterController.StateStoreCreate
  rw [hget]
  by_cases hc : cl.StateStoreCreateCheck <;> simp [hc, hprov, mkRes]

/-- Witness for C9: provider "aws" on a fresh record. -/
theorem stateStoreCreate_noncivo_frame_wit :
    ((demoCtrl "aws").StateStoreCreate envOk).calls = [] ∧
      ((demoCtrl "aws").StateStoreCreate envOk).updates = [] ∧
      ((demoCtrl "aws").StateStoreCreate envOk).result = none :=
  stateStoreCreate_noncivo_frame (demoCtrl "aws") envOk freshRecord rfl (by decide)

/-! ### Claim C3: counterexample -/

/-- Oracle whose civo `GetAccessCredentials` call reports an error while
still returning a fully populated credentials value. -/
def envCivoAdapterErr : Env :=
  { envOk with civoGetAccessCredentials := (fullCivoCreds, some "network timeout") }

/-- C3 counterexample: the civo `GetAccessCredentials` adapter call returns
the error "network timeout", yet `StateStoreCredentials` returns nil and
even sets the checkpoint — the adapter error is not returned to the caller
(the source only logs it). -/
theorem civoGetCredentials_error_swallowed_cex :
    envCivoAdapterErr.civoGetAccessCredentials.2 = some "network timeout" ∧
      ((demoCtrl "civo").StateStoreCredentials envCivoAdapterErr).result = none ∧
      (⟨"state_store_creds_check", FieldValue.flag true⟩ : ClusterUpdate) ∈
        ((demoCtrl "civo").StateStoreCredentials envCivoAdapterErr).updates := by
  decide

/-! ### Claim C6: counterexample -/

/-- A controller whose provider is aws but whose static AWS key fields are
empty strings. -/
def awsEmptyKeysCtrl : ClusterController :=
  ⟨"demo", "aws", "nyc1", "kf-state", "kf-artifacts", "", ""⟩

/-- C6 counterexample: for the unrecognized provider "nonsense" the switch
matches no case, yet the operation persists the zero-value (all-empty)
credential bundle and sets `state_store_creds_check` to true, returning
nil; likewise the aws branch persists an unvalidated bundle — empty
controller keys are stored as-is with the checkpoint set. -/
theorem unknownProvider_checkpoint_cex :
    (((demoCtrl "nonsense").StateStoreCredentials envOk).result = none ∧
      ((demoCtrl "nonsense").StateStoreCredentials envOk).updates =
        [⟨"state_store_credentials", FieldValue.creds ⟨"", "", "", ""⟩⟩,
          ⟨"state_store_creds_check", FieldValue.flag true⟩]) ∧
      (awsEmptyKeysCtrl.StateStoreCredentials envOk).result = none ∧
      (⟨"state_store_credentials", FieldValue.creds ⟨"", "", "", ""⟩⟩ : ClusterUpdate) ∈
        (awsEmptyKeysCtrl.StateStoreCredentials envOk).updates ∧
      (⟨"state_store_creds_check", FieldValue.flag true⟩ : ClusterUpdate) ∈
        (awsEmptyKeysCtrl.StateStoreCredentials envOk).updates := by
  decide

/-! ### Claim C7: counterexample -/

/-- C7 counterexample: with `stateStoreCreateCheck` false and an empty
stored `AccessKeyID`, `StateStoreCreate` does not fail fast: it issues the
`CreateStorageBucket` provider call with the empty access key and (the call
succeeding) returns nil, setting the step-2 checkpoint. -/
theorem stateStoreCreate_no_failfast_cex :
    freshRecord.StateStoreCredentials.AccessKeyID = "" ∧
      ((demoCtrl "civo").StateStoreCreate envOk).calls =
        [AdapterCall.civoCreateStorageBucket "" "kf-state" "nyc1"] ∧
      ((demoCtrl "civo").StateStoreCreate envOk).result = none := by
  decide

/-! ### Claim C10 -/

/-- C10: in the digitalocean branch the endpoint is the hardcoded
"nyc3.digitaloceanspaces.com": it is the endpoint passed to the
bucket-creation call, it is the Hostname persisted in any
`state_store_details` update, and the whole invocation is independent of
the controller's `CloudRegion`. -/
theorem digitalocean_endpoint_hardcoded (clctrl : ClusterController) (e : Env)
    (cl : ClusterRecord) (hget : e.getCluster = .ok cl)
    (hchk : cl.StateStoreCredsCheck = false)
    (hprov : clctrl.CloudProvider = "digitalocean") :
    (clctrl.StateStoreCredentials e).calls =
        [AdapterCall.doCreateSpaceBucket e.doSpacesKey e.doSpacesSecret
          "nyc3.digitaloceanspaces.com" clctrl.KubefirstStateStoreBucketName] ∧
      (∀ u ∈ (clctrl.StateStoreCredentials e).updates, u.field = "state_store_details" →
        u.value = FieldValue.details
          ⟨clctrl.KubefirstStateStoreBucketName, "", "nyc3.digitaloceanspaces.com", "", ""⟩) ∧
      (∀ r : String,
        ({ clctrl with CloudRegion := r } : ClusterController).StateStoreCredentials e =
          clctrl.StateStoreCredentials e) := by
  unfold ClusterController.StateStoreCredentials
  simp only [hget, hchk, hprov, Bool.false_eq_true, reduceIte, String.reduceEq]
  rcases hdo : e.doCreateSpaceBucket with _ | err <;>
    rcases h0 : e.updateCluster 0 with _ | e0 <;>
    rcases h1 : e.updateCluster 1 with _ | e1 <;>
    rcases h2 : e.updateCluster 2 with _ | e2 <;>
    simp_all [persistCredsAndCheck, mkRes]

/-! ### Claim C4 -/

/-- Modelled from the spec: the validator's fixed required-field order —
access key, resource id, resource name, secret key — returning the name of
the first empty field, or `none` when all are present. -/
def specFirstMissingCivoField (creds : CivoCreds) : Option String :=
  if creds.AccessKeyID = "" then some "AccessKeyID"
  else if creds.ID = "" then some "ID"
  else if creds.Name = "" then some "Name"
  else if creds.SecretAccessKeyID = "" then some "SecretAccessKeyID"
  else none

/-- C4: whenever some required field is empty, the civo validator's message
names exactly the first empty field in the fixed order AccessKeyID, ID,
Name, SecretAccessKeyID, and instructs the caller to retry cluster
creation. -/
theorem civoValidator_names_first_missing_field (creds : CivoCreds) (fld : String)
    (h : specFirstMissingCivoField creds = some fld) :
    civoCredsFailureMessage creds =
      "when retrieving civo access credentials, " ++ fld ++
        " was empty - please retry your cluster creation" := by
  unfold specFirstMissingCivoField at h
  unfold civoCredsFailureMessage
  split_ifs at h ⊢ <;> simp only [Option.some.injEq] at h <;> subst h <;> rfl

/-- Witness for C4: the claim's example — non-empty AccessKeyID and ID but
empty Name yields the message naming Name. -/
theorem civoValidator_names_first_missing_field_wit :
    civoCredsFailureMessage ⟨"AK", "RID", "", "SK"⟩ =
      "when retrieving civo access credentials, " ++ "Name" ++
        " was empty - please retry your cluster creation" :=
  civoValidator_names_first_missing_field ⟨"AK", "RID", "", "SK"⟩ "Name" (by decide)

/-! ### Claim C5 -/

/-- C5: when civo credential validation fails, exactly one compensating
`DeleteAccessCredentials` call is issued (the calls are exactly the get
followed by the delete), no field update is issued, and the returned error
is the delete call's own error when it fails, otherwise the validation
message. -/
theorem civo_compensation_on_validation_failure (clctrl : ClusterController)
    (e : Env) (cl : ClusterRecord) (hget : e.getCluster = .ok cl)
    (hchk : cl.StateStoreCredsCheck = false)
    (hprov : clctrl.CloudProvider = "civo")
    (hmsg : civoCredsFailureMessage (e.civoGetAccessCredentials).1 ≠ "") :
    (clctrl.StateStoreCredentials e).calls =
        [AdapterCall.civoGetAccessCredentials clctrl.KubefirstStateStoreBucketName clctrl.CloudRegion,
          AdapterCall.civoDeleteAccessCredentials clctrl.KubefirstStateStoreBucketName clctrl.CloudRegion] ∧
      List.count
          (AdapterCall.civoDeleteAccessCredentials clctrl.KubefirstStateStoreBucketName clctrl.CloudRegion)
          (clctrl.StateStoreCredentials e).calls = 1 ∧
      (clctrl.StateStoreCredentials e).updates = [] ∧
      (clctrl.StateStoreCredentials e).result =
        some ((e.civoDeleteAccessCredentials).getD
          (civoCredsFailureMessage (e.civoGetAccessCredentials).1)) := by
  unfold ClusterController.StateStoreCredentials
  simp only [hget, hchk, hprov, Bool.false_eq_true, reduceIte, String.reduceEq, hmsg,
    ne_eq, not_false_eq_true]
  rcases hdel : e.civoDeleteAccessCredentials with _ | err <;>
    simp_all [mkRes, List.count_cons]

/-- Oracle returning civo credentials with an empty Name field. -/
def envCivoBadName : Env :=
  { envOk with civoGetAccessCredentials := (⟨"AK", "RID", "", "SK"⟩, none) }

/-- Witness for C5 at a concrete civo controller and oracle. -/
theorem civo_compensation_on_validation_failure_wit :
    ((demoCtrl "civo").StateStoreCredentials envCivoBadName).calls =
        [AdapterCall.civoGetAccessCredentials "kf-state" "nyc1",
          AdapterCall.civoDeleteAccessCredentials "kf-state" "nyc1"] ∧
      List.count (AdapterCall.civoDeleteAccessCredentials "kf-state" "nyc1")
        ((demoCtrl "civo").StateStoreCredentials envCivoBadName).calls = 1 ∧
      ((demoCtrl "civo").StateStoreCredentials envCivoBadName).updates = [] ∧
      ((demoCtrl "civo").StateStoreCredentials envCivoBadName).result =
        some ((envCivoBadName.civoDeleteAccessCredentials).getD
          (civoCredsFailureMessage (envCivoBadName.civoGetAccessCredentials).1)) :=
  civo_compensation_on_validation_failure (demoCtrl "civo") envCivoBadName
    freshRecord rfl rfl rfl (by decide)

/-! ### Claim C2 -/

/-- C2: in a successful, non-skipped invocation of either operation, the
checkpoint write is the last issued mutation, and every mutation before it
writes only the data fields. -/
theorem checkpoint_write_is_last (clctrl : ClusterController) (e : Env)
    (cl : ClusterRecord) (hget : e.getCluster = .ok cl) :
    (cl.StateStoreCredsCheck = false → (clctrl.StateStoreCredentials e).result = none →
      ((clctrl.StateStoreCredentials e).updates.getLast? =
          some ⟨"state_store_creds_check", FieldValue.flag true⟩ ∧
        ∀ u ∈ (clctrl.StateStoreCredentials e).updates.dropLast,
          u.field = "state_store_details" ∨ u.field = "state_store_credentials")) ∧
    (cl.StateStoreCreateCheck = false → clctrl.CloudProvider = "civo" →
      (clctrl.StateStoreCreate e).result = none →
      ((clctrl.StateStoreCreate e).updates.getLast? =
          some ⟨"state_store_create_check", FieldValue.flag true⟩ ∧
        ∀ u ∈ (clctrl.StateStoreCreate e).updates.dropLast,
          u.field = "state_store_details")) := by
  constructor
  · intro hchk hres
    unfold ClusterController.StateStoreCredentials at hres ⊢
    simp only [hget, hchk, Bool.false_eq_true, reduceIte] at hres ⊢
    split_ifs at hres ⊢ with h1 h2 h3 h4 h5
    · rcases ha1 : e.awsCreateBucket clctrl.KubefirstStateStoreBucketName with e1 | b1 <;>
        rcases ha2 : e.awsCreateBucket clctrl.KubefirstArtifactsBucketName with e2 | b2 <;>
        rcases h0 : e.updateCluster 0 with _ | u0e <;>
        rcases hu1 : e.updateCluster 1 with _ | u1e <;>
        rcases hu2 : e.updateCluster 2 with _ | u2e <;>
        simp_all [persistCredsAndCheck, mkRes]
    · rcases hdel : e.civoDeleteAccessCredentials with _ | derr <;>
        simp_all [mkRes]
    · rcases hu0 : e.updateCluster 0 with _ | u0e <;>
        rcases hu1 : e.updateCluster 1 with _ | u1e <;>
        simp_all [persistCredsAndCheck, mkRes]
    · rcases hdo : e.doCreateSpaceBucket with _ | doerr <;>
        rcases h0 : e.updateCluster 0 with _ | u0e <;>
        rcases hu1 : e.updateCluster 1 with _ | u1e <;>
        rcases hu2 : e.updateCluster 2 with _ | u2e <;>
        simp_all [persistCredsAndCheck, mkRes]
    · rcases hv1 : e.vultrCreateObjectStorage with ve | objst <;>
        rcases hv2 : e.vultrCreateObjectStorageBucket with _ | verr <;>
        rcases h0 : e.updateCluster 0 with _ | u0e <;>
        rcases hu1 : e.updateCluster 1 with _ | u1e <;>
        rcases hu2 : e.updateCluster 2 with _ | u2e <;>
        simp_all [persistCredsAndCheck, mkRes]
    · rcases hu0 : e.updateCluster 0 with _ | u0e <;>
        rcases hu1 : e.updateCluster 1 with _ | u1e <;>
        simp_all [persistCredsAndCheck, mkRes]
  · intro hchk hprov hres
    unfold ClusterController.StateStoreCreate at hres ⊢
    simp only [hget, hchk, hprov, Bool.false_eq_true, reduceIte, String.reduceEq] at hres ⊢
    rcases hb : e.civoCreateStorageBucket with berr | bucket <;>
      rcases h0 : e.updateCluster 0 with _ | u0e <;>
      rcases hu1 : e.updateCluster 1 with _ | u1e <;>
      simp_all [mkRes]

/-- Witness for C2 at a concrete civo controller, oracle and record. -/
theorem checkpoint_write_is_last_wit :
    (((demoCtrl "civo").StateStoreCredentials envOk).updates.getLast? =
        some ⟨"state_store_creds_check", FieldValue.flag true⟩ ∧
      (∀ u ∈ ((demoCtrl "civo").StateStoreCredentials envOk).updates.dropLast,
        u.field = "state_store_details" ∨ u.field = "state_store_credentials")) ∧
      (((demoCtrl "civo").StateStoreCreate envOk).updates.getLast? =
          some ⟨"state_store_create_check", FieldValue.flag true⟩ ∧
        ∀ u ∈ ((demoCtrl "civo").StateStoreCreate envOk).updates.dropLast,
          u.field = "state_store_details") :=
  ⟨(checkpoint_write_is_last (demoCtrl "civo") envOk freshRecord rfl).1 rfl (by decide),
    (checkpoint_write_is_last (demoCtrl "civo") envOk freshRecord rfl).2 rfl rfl (by decide)⟩

/-! ### Claim C8 -/

/-- C8: every value either operation ever writes to a checkpoint field is
`true` — the flags are monotone under both operations, whatever the
provider, record or external outcomes. -/
theorem checkpoint_flags_only_written_true (clctrl : ClusterController) (e : Env)
    (u : ClusterUpdate)
    (hu : u ∈ (clctrl.StateStoreCredentials e).updates ∨
      u ∈ (clctrl.StateStoreCreate e).updates)
    (hfld : u.field = "state_store_creds_check" ∨ u.field = "state_store_create_check") :
    u.value = FieldValue.flag true := by
  rcases hu with hu | hu
  · unfold ClusterController.StateStoreCredentials at hu
    rcases hg : e.getCluster with gerr | cl <;> simp only [hg] at hu
    · simp [mkRes] at hu
    · by_cases hc : cl.StateStoreCredsCheck = true
      · simp [hc, mkRes] at hu
      · simp only [Bool.not_eq_true] at hc
        simp only [hc, Bool.false_eq_true, reduceIte] at hu
        split_ifs at hu with h1 h2 h3 h4 h5
        · rcases ha1 : e.awsCreateBucket clctrl.KubefirstStateStoreBucketName with e1 | b1 <;>
            rcases ha2 : e.awsCreateBucket clctrl.KubefirstArtifactsBucketName with e2 | b2 <;>
            rcases h0 : e.updateCluster 0 with _ | u0e <;>
            rcases hx1 : e.updateCluster 1 with _ | u1e <;>
            rcases hx2 : e.updateCluster 2 with _ | u2e <;>
            simp_all [persistCredsAndCheck, mkRes] <;>
            rcases hu with rfl | rfl | rfl <;> simp_all
        · rcases hdel : e.civoDeleteAccessCredentials with _ | derr <;>
            simp_all [mkRes]
        · rcases h0 : e.updateCluster 0 with _ | u0e <;>
            rcases hx1 : e.updateCluster 1 with _ | u1e <;>
            simp_all [persistCredsAndCheck, mkRes] <;>
            rcases hu with rfl | rfl <;> simp_all
        · rcases hdo : e.doCreateSpaceBucket with _ | doerr <;>
            rcases h0 : e.updateCluster 0 with _ | u0e <;>
            rcases hx1 : e.updateCluster 1 with _ | u1e <;>
            rcases hx2 : e.updateCluster 2 with _ | u2e <;>
            simp_all [persistCredsAndCheck, mkRes] <;>
            rcases hu with rfl | rfl | rfl <;> simp_all
        · rcases hv1 : e.vultrCreateObjectStorage with ve | objst <;>
            rcases hv2 : e.vultrCreateObjectStorageBucket with _ | verr <;>
            rcases h0 : e.updateCluster 0 with _ | u0e <;>
            rcases hx1 : e.updateCluster 1 with _ | u1e <;>
            rcases hx2 : e.updateCluster 2 with _ | u2e <;>
            simp_all [persistCredsAndCheck, mkRes] <;>
            rcases hu with rfl | rfl | rfl <;> simp_all
        · rcases h0 : e.updateCluster 0 with _ | u0e <;>
            rcases hx1 : e.updateCluster 1 with _ | u1e <;>
            simp_all [persistCredsAndCheck, mkRes] <;>
            rcases hu with rfl | rfl <;> simp_all
  · unfold ClusterController.StateStoreCreate at hu
    rcases hg : e.getCluster with gerr | cl <;> simp only [hg] at hu
    · simp [mkRes] at hu
    · by_cases hc : cl.StateStoreCreateCheck = true
      · simp [hc, mkRes] at hu
      · simp only [Bool.not_eq_true] at hc
        simp only [hc, Bool.false_eq_true, reduceIte] at hu
        split_ifs at hu with h1
        · rcases hb : e.civoCreateStorageBucket with berr | bucket <;>
            rcases h0 : e.updateCluster 0 with _ | u0e <;>
            rcases hx1 : e.updateCluster 1 with _ | u1e <;>
            simp_all [mkRes] <;>
            rcases hu with rfl | rfl <;> simp_all
        · simp [mkRes] at hu

/-- Witness for C8: the concrete checkpoint write of a successful civo run. -/
theorem checkpoint_flags_only_written_true_wit :
    (⟨"state_store_creds_check", FieldValue.flag true⟩ : ClusterUpdate).value =
      FieldValue.flag true :=
  checkpoint_flags_only_written_true (demoCtrl "civo") envOk
    ⟨"state_store_creds_check", FieldValue.flag true⟩ (Or.inl (by decide)) (Or.inl rfl)

/-! ### Claim C3: amended theorem -/

/-- C3 (amended): adapter-call failures in the aws, digitalocean and vultr
branches are returned to the caller unmodified or with one line of added
context and no mutation is issued (the checkpoint stays false); the civo
`GetAccessCredentials` error alone is only logged — the run is identical
whether or not that call reports an error, the caller seeing only the
validation outcome of the returned credentials value. -/
theorem adapter_error_propagation (clctrl : ClusterController) (e : Env)
    (cl : ClusterRecord) (hget : e.getCluster = .ok cl)
    (hchk : cl.StateStoreCredsCheck = false) :
    (∀ err, clctrl.CloudProvider = "aws" →
      e.awsCreateBucket clctrl.KubefirstStateStoreBucketName = .error err →
      (clctrl.StateStoreCredentials e).result = some err ∧
        (clctrl.StateStoreCredentials e).updates = []) ∧
    (∀ err b1, clctrl.CloudProvider = "aws" →
      e.awsCreateBucket clctrl.KubefirstStateStoreBucketName = .ok b1 →
      e.awsCreateBucket clctrl.KubefirstArtifactsBucketName = .error err →
      (clctrl.StateStoreCredentials e).result = some err ∧
        (clctrl.StateStoreCredentials e).updates = []) ∧
    (∀ err, clctrl.CloudProvider = "digitalocean" →
      e.doCreateSpaceBucket = some err →
      (clctrl.StateStoreCredentials e).result =
          some ("error creating spaces bucket " ++ clctrl.KubefirstStateStoreBucketName ++ ": " ++ err) ∧
        (clctrl.StateStoreCredentials e).updates = []) ∧
    (∀ err, clctrl.CloudProvider = "vultr" →
      e.vultrCreateObjectStorage = .error err →
      (clctrl.StateStoreCredentials e).result = some err ∧
        (clctrl.StateStoreCredentials e).updates = []) ∧
    (∀ err objst, clctrl.CloudProvider = "vultr" →
      e.vultrCreateObjectStorage = .ok objst →
      e.vultrCreateObjectStorageBucket = some err →
      (clctrl.StateStoreCredentials e).result =
          some ("error creating vultr state storage bucket: " ++ err) ∧
        (clctrl.StateStoreCredentials e).updates = []) ∧
    (∀ creds err,
      ClusterController.StateStoreCredentials clctrl
          { e with civoGetAccessCredentials := (creds, some err) } =
        ClusterController.StateStoreCredentials clctrl
          { e with civoGetAccessCredentials := (creds, none) }) := by
  refine ⟨?_, ?_, ?_, ?_, ?_, ?_⟩
  · intro err hp herr
    unfold ClusterController.StateStoreCredentials
    simp [hget, hchk, hp, herr, mkRes]
  · intro err b1 hp h1 h2
    unfold ClusterController.StateStoreCredentials
    simp [hget, hchk, hp, h1, h2, mkRes]
  · intro err hp herr
    unfold ClusterController.StateStoreCredentials
    simp [hget, hchk, hp, herr, mkRes]
  · intro err hp herr
    unfold ClusterController.StateStoreCredentials
    simp [hget, hchk, hp, herr, mkRes]
  · intro err objst hp h1 h2
    unfold ClusterController.StateStoreCredentials
    simp [hget, hchk, hp, h1, h2, mkRes]
  · intro creds err
    rfl

/-- Oracle whose aws `CreateBucket` call always fails. -/
def envAwsErr : Env := { envOk with awsCreateBucket := fun _ => .error "aws boom" }

/-- Witness for the amended C3: a failing aws bucket call propagates. -/
theorem adapter_error_propagation_wit :
    ((demoCtrl "aws").StateStoreCredentials envAwsErr).result = some "aws boom" ∧
      ((demoCtrl "aws").StateStoreCredentials envAwsErr).updates = [] :=
  (adapter_error_propagation (demoCtrl "aws") envAwsErr freshRecord rfl rfl).1
    "aws boom" rfl rfl

/-! ### Claim C6: amended theorem -/

/-- The civo failure message is empty exactly when all four required fields
are non-empty. -/
theorem civoCredsFailureMessage_empty_iff (creds : CivoCreds) :
    civoCredsFailureMessage creds = "" ↔
      creds.AccessKeyID ≠ "" ∧ creds.ID ≠ "" ∧ creds.Name ≠ "" ∧
        creds.SecretAccessKeyID ≠ "" := by
  unfold civoCredsFailureMessage
  split_ifs <;> simp_all

/-- C6 (amended): in the civo branch, whenever the operation succeeds — and
hence writes `state_store_creds_check = true` — the persisted
`state_store_credentials` value is the validated bundle, with all four
fields non-empty. -/
theorem civo_checkpoint_implies_validated_bundle (clctrl : ClusterController)
    (e : Env) (cl : ClusterRecord) (hget : e.getCluster = .ok cl)
    (hchk : cl.StateStoreCredsCheck = false)
    (hprov : clctrl.CloudProvider = "civo")
    (hres : (clctrl.StateStoreCredentials e).result = none) :
    ∃ data : types.StateStoreCredentials,
      (clctrl.StateStoreCredentials e).updates =
        [⟨"state_store_credentials", FieldValue.creds data⟩,
          ⟨"state_store_creds_check", FieldValue.flag true⟩] ∧
      data.AccessKeyID ≠ "" ∧ data.SecretAccessKey ≠ "" ∧ data.Name ≠ "" ∧
        data.ID ≠ "" := by
  unfold ClusterController.StateStoreCredentials at hres ⊢
  simp only [hget, hchk, hprov, Bool.false_eq_true, reduceIte, String.reduceEq] at hres ⊢
  by_cases hmsg : civoCredsFailureMessage (e.civoGetAccessCredentials).1 = ""
  · simp only [hmsg, ne_eq, not_true_eq_false, reduceIte] at hres ⊢
    rcases h0 : e.updateCluster 0 with _ | u0e <;>
      rcases h1 : e.updateCluster 1 with _ | u1e <;>
      simp_all [persistCredsAndCheck, mkRes]
    rcases (civoCredsFailureMessage_empty_iff (e.civoGetAccessCredentials).1).mp hmsg
      with ⟨ha, hb, hc2, hd⟩
    exact ⟨ha, hd, hc2, hb⟩
  · rcases hdel : e.civoDeleteAccessCredentials with _ | derr <;>
      simp_all [mkRes]

/-- Witness for the amended C6 at a concrete civo controller and oracle. -/
theorem civo_checkpoint_implies_validated_bundle_wit :
    ∃ data : types.StateStoreCredentials,
      ((demoCtrl "civo").StateStoreCredentials envOk).updates =
        [⟨"state_store_credentials", FieldValue.creds data⟩,
          ⟨"state_store_creds_check", FieldValue.flag true⟩] ∧
      data.AccessKeyID ≠ "" ∧ data.SecretAccessKey ≠ "" ∧ data.Name ≠ "" ∧
        data.ID ≠ "" :=
  civo_checkpoint_implies_validated_bundle (demoCtrl "civo") envOk freshRecord
    rfl rfl rfl (by decide)

/-! ### Claim C7: amended theorem -/

/-- C7 (amended): `StateStoreCreate` has no empty-credential guard: for a
civo record with the step-2 checkpoint false it always issues the single
`CreateStorageBucket` call, passing the stored `AccessKeyID` even when it
is empty; any failure comes from the provider call itself, whose error is
returned with no mutation issued. -/
theorem stateStoreCreate_always_attempts_call (clctrl : ClusterController)
    (e : Env) (cl : ClusterRecord) (hget : e.getCluster = .ok cl)
    (hchk : cl.StateStoreCreateCheck = false)
    (hprov : clctrl.CloudProvider = "civo") :
    (clctrl.StateStoreCreate e).calls =
        [AdapterCall.civoCreateStorageBucket cl.StateStoreCredentials.AccessKeyID
          clctrl.KubefirstStateStoreBucketName clctrl.CloudRegion] ∧
      (∀ err, e.civoCreateStorageBucket = .error err →
        (clctrl.StateStoreCreate e).result = some err ∧
          (clctrl.StateStoreCreate e).updates = []) := by
  unfold ClusterController.StateStoreCreate
  simp only [hget, hchk, hprov, Bool.false_eq_true, reduceIte, String.reduceEq]
  constructor
  · rcases hb : e.civoCreateStorageBucket with berr | bucket <;>
      rcases h0 : e.updateCluster 0 with _ | u0e <;>
      rcases h1 : e.updateCluster 1 with _ | u1e <;>
      simp_all [mkRes]
  · intro err herr
    simp [herr, mkRes]

/-- Witness for the amended C7: the call is issued with the empty stored
access key. -/
theorem stateStoreCreate_always_attempts_call_wit :
    ((demoCtrl "civo").StateStoreCreate envOk).calls =
        [AdapterCall.civoCreateStorageBucket
          freshRecord.StateStoreCredentials.AccessKeyID "kf-state" "nyc1"] ∧
      (∀ err, envOk.civoCreateStorageBucket = .error err →
        ((demoCtrl "civo").StateStoreCreate envOk).result = some err ∧
          ((demoCtrl "civo").StateStoreCreate envOk).updates = []) :=
  stateStoreCreate_always_attempts_call (demoCtrl "civo") envOk freshRecord rfl rfl rfl

/-- Witness for C10 at a concrete digitalocean controller and oracle. -/
theorem digitalocean_endpoint_hardcoded_wit :
    ((demoCtrl "digitalocean").StateStoreCredentials envOk).calls =
        [AdapterCall.doCreateSpaceBucket "dokey" "dosecret"
          "nyc3.digitaloceanspaces.com" "kf-state"] ∧
      (∀ u ∈ ((demoCtrl "digitalocean").StateStoreCredentials envOk).updates,
        u.field = "state_store_details" →
        u.value = FieldValue.details ⟨"kf-state", "", "nyc3.digitaloceanspaces.com", "", ""⟩) ∧
      (∀ r : String,
        ({ demoCtrl "digitalocean" with CloudRegion := r } : ClusterController).StateStoreCredentials envOk =
          (demoCtrl "digitalocean").StateStoreCredentials envOk) :=
  digitalocean_endpoint_hardcoded (demoCtrl "digitalocean") envOk freshRecord rfl rfl rfl
